import Mathlib

-- Verification of the carousel-generation workflow of the HYEOKSIN-INSTA
-- repository: a shallow embedding of the credential store (ApiKeyManager.tsx),
-- the generation client (getApiKey, generatePlan, generateImage,
-- generateInstagramPost) and the workflow orchestrator (App.tsx,
-- handleStartAutomation, handleImageUpload), together with theorems about the
-- properties the specification states for them.  External provider calls are
-- modelled as oracles describing the response the provider hands back; the
-- in-repo code around those calls is translated faithfully.

deriving instance DecidableEq for Except

-- ## JavaScript string primitives used by the source

-- Model of the JavaScript truthiness test on a string: empty is falsy.
def strEmpty (s : String) : Bool := s.data.isEmpty

def startsWithChars : List Char → List Char → Bool
  | _, [] => true
  | [], _ :: _ => false
  | c :: cs, d :: ds => (c == d) && startsWithChars cs ds

def containsChars : List Char → List Char → Bool
  | [], sub => sub.isEmpty
  | c :: cs, sub => startsWithChars (c :: cs) sub || containsChars cs sub

-- Model of the JavaScript String.prototype.includes substring test, used by
-- the source to classify provider error messages.
def strIncludes (s sub : String) : Bool := containsChars s.data sub.data

-- Truthiness of an optional string value, as tested by if statements and by
-- the chain of short-circuit or operators in the source.
def truthy : Option String → Bool
  | none => false
  | some s => !strEmpty s

-- Model of the JavaScript short-circuit or on optional string values.
def jsOr (a b : Option String) : Option String := if truthy a then a else b

-- ## Data model (types.ts)

structure CarouselSegment where
  id : Int
  logicalStep : String
  keyMessage : String
  visualPrompt : String
  imageUrl : Option String
  deriving DecidableEq

structure InstagramPostData where
  caption : String
  hashtags : List String
  deriving DecidableEq

-- Source type AspectRatio, values 1:1 and 4:5.
inductive Aspect
  | r1x1
  | r4x5
  deriving DecidableEq

inductive WorkflowState
  | idle
  | planning
  | generating_images
  | generating_caption
  | completed
  deriving DecidableEq

-- Default segment used by the total indexing function below.
def dseg : CarouselSegment := ⟨0, "", "", "", none⟩

-- Total read of position i of a segment list, standing for segments[i].
def segAt : List CarouselSegment → Nat → CarouselSegment
  | [], _ => dseg
  | s :: _, 0 => s
  | _ :: rest, i + 1 => segAt rest i

-- ## Credential store state (localStorage slot and environment fallbacks)

structure Store where
  customKey : Option String
  envApiKey : Option String
  envGeminiKey : Option String
  deriving DecidableEq

-- getApiKey from services/ai: localStorage CUSTOM_GEMINI_API_KEY, falling back
-- to process.env.API_KEY and then process.env.GEMINI_API_KEY, with JavaScript
-- truthiness at each step.
def getApiKey (st : Store) : Option String :=
  jsOr st.customKey (jsOr st.envApiKey st.envGeminiKey)

-- ## Provider response oracles

-- Outcome of the plan call as seen by generatePlan: the call can reject with
-- an error message, resolve with no text, resolve with text that JSON.parse
-- rejects, or resolve with text parsing to a segment array.  The parsed case
-- carries the segments the text denotes; the code applies no further check.
inductive PlanResponse
  | thrown (msg : String)
  | noText
  | badJson (msg : String)
  | parsed (segs : List CarouselSegment)
  deriving DecidableEq

-- One content part of an image response; inlineData is the base64 payload
-- when the part carries inline binary data.
structure ContentPart where
  inlineData : Option String
  deriving DecidableEq

-- Outcome of an image call: rejection with a message, or a resolved response
-- whose candidate content parts are listed (empty when candidates are absent).
inductive ImageResponse
  | thrown (msg : String)
  | resolved (parts : List ContentPart)
  deriving DecidableEq

-- Outcome of the caption and hashtag call, shaped like the plan call.
inductive PostResponse
  | thrown (msg : String)
  | noText
  | badJson (msg : String)
  | parsed (post : InstagramPostData)
  deriving DecidableEq

-- ## Generation client (services/ai)

-- generatePlan: fails immediately without a truthy key; otherwise the thrown,
-- no-text and unparseable cases fail with the corresponding message, and a
-- parseable response is returned as is, with no validation of length or ids.
def generatePlan (apiKey : Option String) (topic : String) (count : Nat)
    (a : Aspect) (referenceImages : List String) (resp : PlanResponse) :
    Except String (List CarouselSegment) :=
  if truthy apiKey then
    match resp with
    | .thrown msg => .error msg
    | .noText => .error "Failed to generate plan"
    | .badJson msg => .error msg
    | .parsed segs => .ok segs
  else .error "API Key is missing."

-- Scan of the response parts for the first inline payload, as the for loop of
-- generateImage does.
def findInline : List ContentPart → Option String
  | [] => none
  | p :: ps =>
    match p.inlineData with
    | some d => some d
    | none => findInline ps

-- generateImage: fails without a truthy key; a rejected call propagates its
-- message; otherwise the first inline payload is returned as a png data URI
-- and a response with no inline part fails with the distinct no-image error.
def generateImage (apiKey : Option String) (segment : CarouselSegment)
    (a : Aspect) (referenceImages : List String) (resp : ImageResponse) :
    Except String String :=
  if truthy apiKey then
    match resp with
    | .thrown msg => .error msg
    | .resolved parts =>
      match findInline parts with
      | some d => .ok ("data:image/png;base64," ++ d)
      | none => .error "Failed to generate image"
  else .error "API Key is missing."

-- generateInstagramPost: same guard and failure shape as generatePlan.
def generateInstagramPost (apiKey : Option String) (topic : String)
    (segments : List CarouselSegment) (resp : PostResponse) :
    Except String InstagramPostData :=
  if truthy apiKey then
    match resp with
    | .thrown msg => .error msg
    | .noText => .error "Failed to generate post data"
    | .badJson msg => .error msg
    | .parsed p => .ok p
  else .error "API Key is missing."

-- ## Credential test (ApiKeyManager handleTest)

inductive TestStatus
  | success
  | error
  deriving DecidableEq

structure TestOutcome where
  status : TestStatus
  store : Store
  keyUpdated : Bool
  deriving DecidableEq

-- Outcome of the minimal generation call issued by the test: it resolves with
-- an optional text, or rejects; a rejection is observed through the string the
-- code builds from the caught value.
inductive TestResponse
  | resolved (text : Option String)
  | thrown (errorString : String)
  deriving DecidableEq

-- The substring tests the catch block applies to decide that a failure means
-- overload rather than an invalid key.
def overloadMarker (es : String) : Bool :=
  strIncludes es "503" || strIncludes es "UNAVAILABLE" || strIncludes es "high demand"

-- handleTest: empty candidate is refused; truthy response text persists the
-- candidate and reports success; a falsy text raises a No response error whose
-- string carries no overload marker, so it lands in the invalid branch; a
-- rejection with an overload marker is treated as a successful validation and
-- persists the candidate; any other rejection reports invalid and leaves the
-- store untouched.
def handleTest (apiKey : String) (store : Store) (resp : TestResponse) : TestOutcome :=
  if strEmpty apiKey then ⟨.error, store, false⟩
  else
    match resp with
    | .resolved text =>
      if truthy text then ⟨.success, { store with customKey := some apiKey }, true⟩
      else ⟨.error, store, false⟩
    | .thrown es =>
      if overloadMarker es then ⟨.success, { store with customKey := some apiKey }, true⟩
      else ⟨.error, store, false⟩

-- ## Encrypted export and import (ApiKeyManager handleSave and handleLoad)

-- Decrypted plaintext at the JSON boundary: either text parsing to an object
-- whose string fields are listed, or nonempty text that JSON.parse rejects.
inductive PlainText
  | jsonObj (fields : List (String × String))
  | notJson
  deriving DecidableEq

-- An encrypted blob produced by the CryptoJS AES call.  The external cipher is
-- modelled as ideal: the blob determines its plaintext and passphrase.
inductive EncBlob
  | enc (plain : PlainText) (passphrase : String)
  deriving DecidableEq

-- Model of CryptoJS.AES.decrypt followed by UTF-8 decoding (external library):
-- with the encrypting passphrase the plaintext is recovered; with any other
-- passphrase the bytes decode to nothing usable, which the source observes as
-- an empty or malformed plaintext and turns into a failure.
def decryptUtf8 : EncBlob → String → Option PlainText
  | .enc plain p, pass => if pass = p then some plain else none

inductive SaveStatus
  | missingInput
  | saved
  deriving DecidableEq

structure SaveOutcome where
  blob : Option EncBlob
  store : Store
  keyUpdated : Bool
  status : SaveStatus
  deriving DecidableEq

-- handleSave: with empty key or password it alerts and does nothing; otherwise
-- it serializes the GEMINI_API_KEY object, encrypts it with the password,
-- offers the blob for download, writes the key to the store slot and signals
-- dependents.
def handleSave (apiKey password : String) (store : Store) : SaveOutcome :=
  if strEmpty apiKey || strEmpty password then ⟨none, store, false, .missingInput⟩
  else ⟨some (.enc (.jsonObj [("GEMINI_API_KEY", apiKey)]) password),
        { store with customKey := some apiKey }, true, .saved⟩

inductive LoadStatus
  | needPassword
  | decryptFailed
  | silentIgnore
  | loaded (key : String)
  deriving DecidableEq

structure LoadOutcome where
  status : LoadStatus
  store : Store
  keyUpdated : Bool
  deriving DecidableEq

def lookupField (fields : List (String × String)) (k : String) : Option String :=
  (fields.find? (fun kv => kv.1 == k)).map (fun kv => kv.2)

-- handleLoad: with an empty password it prompts for one and does not touch the
-- blob; an empty or malformed decryption, and also text JSON.parse rejects,
-- land in the single catch block and alert the decryption failure; a parsed
-- object with a truthy GEMINI_API_KEY field overwrites the store slot and
-- signals dependents; a parsed object without such a field does nothing.
def handleLoad (password : String) (blob : EncBlob) (store : Store) : LoadOutcome :=
  if strEmpty password then ⟨.needPassword, store, false⟩
  else
    match decryptUtf8 blob password with
    | none => ⟨.decryptFailed, store, false⟩
    | some .notJson => ⟨.decryptFailed, store, false⟩
    | some (.jsonObj fields) =>
      match lookupField fields "GEMINI_API_KEY" with
      | some k =>
        if strEmpty k then ⟨.silentIgnore, store, false⟩
        else ⟨.loaded k, { store with customKey := some k }, true⟩
      | none => ⟨.silentIgnore, store, false⟩

-- ## Workflow orchestrator (App.tsx)

structure AppState where
  topic : String
  count : Nat
  aspect : Aspect
  referenceImages : List String
  segments : List CarouselSegment
  postData : Option InstagramPostData
  workflowState : WorkflowState
  hasApiKey : Bool
  deriving DecidableEq

-- Observable effects of a run, in the order the code performs them.
inductive Event
  | setState (w : WorkflowState)
  | publishSegments (segs : List CarouselSegment)
  | publishPost (post : InstagramPostData)
  | imageCall (i : Nat)
  | alertGeneric (msg : String)
  | alertInvalidKey
  | openKeyManager
  deriving DecidableEq

def isGenericAlert : Event → Bool
  | .alertGeneric _ => true
  | _ => false

-- newSegments[i].imageUrl = imgUrl on the working array.
def setImage : List CarouselSegment → Nat → String → List CarouselSegment
  | [], _, _ => []
  | s :: rest, 0, u => { s with imageUrl := some u } :: rest
  | s :: rest, i + 1, u => s :: setImage rest i u

-- The sequential for loop of step 2: at index i with m iterations left, await
-- the image call for the current segment; on failure rethrow, carrying the
-- working set as it stands; on success set the imageUrl of slot i, publish the
-- whole working set, and only then move to the next index.
def imageLoop (store : Store) (a : Aspect) (refs : List String)
    (imgResp : Nat → ImageResponse) :
    Nat → Nat → List CarouselSegment →
    List Event × Except (String × List CarouselSegment) (List CarouselSegment)
  | _, 0, segs => ([], .ok segs)
  | i, m + 1, segs =>
    match generateImage (getApiKey store) (segAt segs i) a refs (imgResp i) with
    | .error msg => ([.imageCall i], .error (msg, segs))
    | .ok u =>
      let segs2 := setImage segs i u
      let rest := imageLoop store a refs imgResp (i + 1) m segs2
      (.imageCall i :: .publishSegments segs2 :: rest.1, rest.2)

structure RunResult where
  state : AppState
  events : List Event
  deriving DecidableEq

-- The catch block: reset the workflow to idle, then classify the message; an
-- entity-not-found message marks the key absent and prompts re-entry, any
-- other message surfaces the generic failure alert.
def runCatch (st : AppState) (evs : List Event) (msg : String) : RunResult :=
  if strIncludes msg "Requested entity was not found" then
    ⟨{ st with workflowState := .idle, hasApiKey := false },
     evs ++ [.setState .idle, .alertInvalidKey]⟩
  else
    ⟨{ st with workflowState := .idle }, evs ++ [.setState .idle, .alertGeneric msg]⟩

-- handleStartAutomation: without the key flag it opens the key manager and
-- returns; without a topic it returns; otherwise it clears prior results and
-- runs plan, sequential images and post generation, updating the shared state
-- after each step, with every thrown failure routed through the catch block.
def handleStartAutomation (st : AppState) (store : Store) (planResp : PlanResponse)
    (imgResp : Nat → ImageResponse) (postResp : PostResponse) : RunResult :=
  if st.hasApiKey then
    if strEmpty st.topic then ⟨st, []⟩
    else
      let st1 : AppState :=
        { st with segments := [], postData := none, workflowState := .planning }
      match generatePlan (getApiKey store) st.topic st.count st.aspect
          st.referenceImages planResp with
      | .error msg => runCatch st1 [.setState .planning] msg
      | .ok plan =>
        let st2 : AppState := { st1 with segments := plan, workflowState := .generating_images }
        let evs2 : List Event :=
          [.setState .planning, .publishSegments plan, .setState .generating_images]
        match imageLoop store st.aspect st.referenceImages imgResp 0 plan.length plan with
        | (evsL, .error (msg, segsF)) =>
          runCatch { st2 with segments := segsF } (evs2 ++ evsL) msg
        | (evsL, .ok segsDone) =>
          let st3 : AppState :=
            { st2 with segments := segsDone, workflowState := .generating_caption }
          let evs3 := evs2 ++ evsL ++ [Event.setState .generating_caption]
          match generateInstagramPost (getApiKey store) st.topic segsDone postResp with
          | .error msg => runCatch st3 evs3 msg
          | .ok post =>
            ⟨{ st3 with postData := some post, workflowState := .completed },
             evs3 ++ [.publishPost post, .setState .completed]⟩
  else ⟨st, [.openKeyManager]⟩

-- ## Reference image upload (App.tsx handleImageUpload)

-- The selected files are modelled by their read results: some data URI when
-- the FileReader load succeeds, none when it fails.  The guard counts all
-- selected files; past the guard each successfully read file is appended.
def handleImageUpload (referenceImages : List String)
    (files : List (Option String)) : List String × Bool :=
  if 20 < referenceImages.length + files.length then (referenceImages, true)
  else (referenceImages ++ files.filterMap id, false)

-- ## Derived descriptions of the loop, used to state its properties

-- The working set after the loop has filled the image slots of indices
-- i through i+m-1, each with the url the call for that index produced.
def applyRange (url : Nat → String) : Nat → Nat → List CarouselSegment → List CarouselSegment
  | _, 0, segs => segs
  | i, m + 1, segs => applyRange url (i + 1) m (setImage segs i (url i))

-- The effects the loop emits while every call succeeds: the call for the
-- current index, then the publication of the whole working set with that slot
-- filled, and only then the effects of the later iterations.
def okTrace (url : Nat → String) : List CarouselSegment → Nat → Nat → List Event
  | _, _, 0 => []
  | segs, i, m + 1 =>
    .imageCall i :: .publishSegments (setImage segs i (url i)) ::
      okTrace url (setImage segs i (url i)) (i + 1) m

-- ## Concrete oracles used to instantiate theorems with hypotheses

def wUrl2 : Nat → String := fun _ => "data:image/png;base64,AAA"

def wImg2 : Nat → ImageResponse := fun i =>
  if i = 0 then .resolved [⟨some "AAA"⟩] else .thrown "network failure"

def xImg2 : Nat → ImageResponse := fun i =>
  if i = 0 then .resolved [⟨some "AAA"⟩] else .thrown "Requested entity was not found."

def wImg7 : Nat → ImageResponse := fun _ => .resolved [⟨some "BBB"⟩]

def wUrl7 : Nat → String := fun _ => "data:image/png;base64,BBB"

def wImg3 : Nat → ImageResponse := fun _ => .thrown "never reached"

-- ## Helper lemmas

-- The segment argument of generateImage only shapes the prompt sent to the
-- provider; the result is determined by the key and the provider response.
theorem generateImage_seg (k : Option String) (s s2 : CarouselSegment) (a : Aspect)
    (refs : List String) (resp : ImageResponse) :
    generateImage k s a refs resp = generateImage k s2 a refs resp := rfl

theorem setImage_length (segs : List CarouselSegment) :
    ∀ (i : Nat) (u : String), (setImage segs i u).length = segs.length := by
  induction segs with
  | nil => intro i u; rfl
  | cons s rest ih =>
    intro i u
    cases i with
    | zero => simp [setImage]
    | succ i => simp [setImage, ih]

theorem segAt_setImage (segs : List CarouselSegment) :
    ∀ (i j : Nat) (u : String),
      segAt (setImage segs i u) j
        = if j = i ∧ j < segs.length then { segAt segs j with imageUrl := some u }
          else segAt segs j := by
  induction segs with
  | nil => intro i j u; simp [setImage, segAt]
  | cons s rest ih =>
    intro i j u
    cases i with
    | zero =>
      cases j with
      | zero => simp [setImage, segAt]
      | succ j => simp [setImage, segAt]
    | succ i =>
      cases j with
      | zero => simp [setImage, segAt]
      | succ j =>
        have hlen : (s :: rest).length = rest.length + 1 := rfl
        simp [setImage, segAt, ih i j u, Nat.succ_lt_succ_iff]

theorem segAt_mem (l : List CarouselSegment) :
    ∀ j, j < l.length → segAt l j ∈ l := by
  induction l with
  | nil => intro j hj; simp at hj
  | cons s rest ih =>
    intro j hj
    cases j with
    | zero => simp [segAt]
    | succ j =>
      have : j < rest.length := by simpa using hj
      simp [segAt]
      exact Or.inr (ih j this)

theorem segAt_applyRange (url : Nat → String) :
    ∀ (m i : Nat) (segs : List CarouselSegment) (j : Nat),
      segAt (applyRange url i m segs) j
        = if i ≤ j ∧ j < i + m ∧ j < segs.length
          then { segAt segs j with imageUrl := some (url j) }
          else segAt segs j := by
  intro m
  induction m with
  | zero =>
    intro i segs j
    have h : ¬(i ≤ j ∧ j < i + 0 ∧ j < segs.length) := by omega
    simp only [applyRange]
    rw [if_neg h]
  | succ m ih =>
    intro i segs j
    show segAt (applyRange url (i + 1) m (setImage segs i (url i))) j = _
    rw [ih (i + 1) (setImage segs i (url i)) j, setImage_length, segAt_setImage]
    by_cases hji : j = i
    · subst hji
      by_cases hlen : j < segs.length
      · have h1 : ¬(j + 1 ≤ j ∧ j < j + 1 + m ∧ j < segs.length) := by omega
        have h2 : j = j ∧ j < segs.length := ⟨rfl, hlen⟩
        have h3 : j ≤ j ∧ j < j + (m + 1) ∧ j < segs.length := by omega
        simp [h1, h2, h3]
      · have h1 : ¬(j + 1 ≤ j ∧ j < j + 1 + m ∧ j < segs.length) := by omega
        have h2 : ¬(j = j ∧ j < segs.length) := fun h => hlen h.2
        have h3 : ¬(j ≤ j ∧ j < j + (m + 1) ∧ j < segs.length) := by omega
        simp [h1, h2, h3]
    · have h2 : ¬(j = i ∧ j < segs.length) := fun h => hji h.1
      by_cases h1 : i + 1 ≤ j ∧ j < i + 1 + m ∧ j < segs.length
      · have h3 : i ≤ j ∧ j < i + (m + 1) ∧ j < segs.length := by omega
        simp [h1, h2, h3, hji]
      · have h3 : ¬(i ≤ j ∧ j < i + (m + 1) ∧ j < segs.length) := by omega
        simp [h1, h2, h3, hji]

theorem segAt_applyRange_none (url : Nat → String) (plan : List CarouselSegment)
    (hnone : ∀ s ∈ plan, s.imageUrl = none) (t j : Nat) (hj : j < plan.length) :
    (segAt (applyRange url 0 t plan) j).imageUrl
      = if j < t then some (url j) else none := by
  rw [segAt_applyRange]
  by_cases h : j < t
  · have hc : 0 ≤ j ∧ j < 0 + t ∧ j < plan.length := by omega
    simp [hc, h]
  · have hc : ¬(0 ≤ j ∧ j < 0 + t ∧ j < plan.length) := by omega
    simp [hc, h, hnone _ (segAt_mem plan j hj)]

theorem applyRange_snoc (url : Nat → String) :
    ∀ (m i : Nat) (segs : List CarouselSegment),
      applyRange url i (m + 1) segs
        = setImage (applyRange url i m segs) (i + m) (url (i + m)) := by
  intro m
  induction m with
  | zero => intro i segs; simp [applyRange]
  | succ m ih =>
    intro i segs
    show applyRange url (i + 1) (m + 1) (setImage segs i (url i)) = _
    rw [ih (i + 1) (setImage segs i (url i))]
    have e : i + 1 + m = i + (m + 1) := by omega
    rw [e]
    rfl

theorem okTrace_join (url : Nat → String) (plan : List CarouselSegment) :
    ∀ (m i : Nat),
      okTrace url (applyRange url 0 i plan) i m
        = ((List.range' i m).map (fun t =>
            [Event.imageCall t, Event.publishSegments (applyRange url 0 (t + 1) plan)])).flatten := by
  intro m
  induction m with
  | zero => intro i; simp [okTrace, List.range']
  | succ m ih =>
    intro i
    have hset : setImage (applyRange url 0 i plan) i (url i) = applyRange url 0 (i + 1) plan := by
      rw [applyRange_snoc]
      simp
    show Event.imageCall i :: Event.publishSegments (setImage (applyRange url 0 i plan) i (url i)) ::
        okTrace url (setImage (applyRange url 0 i plan) i (url i)) (i + 1) m = _
    rw [hset, ih (i + 1), List.range'_succ]
    simp

theorem okTrace_range (url : Nat → String) (plan : List CarouselSegment) (n : Nat) :
    okTrace url plan 0 n
      = ((List.range n).map (fun t =>
          [Event.imageCall t, Event.publishSegments (applyRange url 0 (t + 1) plan)])).flatten := by
  have h := okTrace_join url plan n 0
  rw [List.range_eq_range']
  exact h

theorem imageLoop_ok (store : Store) (a : Aspect) (refs : List String)
    (imgResp : Nat → ImageResponse) (url : Nat → String) :
    ∀ (m i : Nat) (segs : List CarouselSegment),
      (∀ t, t < m →
        generateImage (getApiKey store) dseg a refs (imgResp (i + t)) = .ok (url (i + t))) →
      imageLoop store a refs imgResp i m segs
        = (okTrace url segs i m, .ok (applyRange url i m segs)) := by
  intro m
  induction m with
  | zero => intro i segs h; rfl
  | succ m ih =>
    intro i segs h
    have h0 : generateImage (getApiKey store) (segAt segs i) a refs (imgResp i)
        = .ok (url i) := by
      have := h 0 (by omega)
      simpa using this
    have hnext : ∀ t, t < m →
        generateImage (getApiKey store) dseg a refs (imgResp (i + 1 + t))
          = .ok (url (i + 1 + t)) := by
      intro t ht
      have e : i + (t + 1) = i + 1 + t := by omega
      have := h (t + 1) (by omega)
      rw [e] at this
      exact this
    simp only [imageLoop, h0]
    rw [ih (i + 1) (setImage segs i (url i)) hnext]
    rfl

theorem imageLoop_fail (store : Store) (a : Aspect) (refs : List String)
    (imgResp : Nat → ImageResponse) (url : Nat → String) (msg : String) :
    ∀ (f m i : Nat) (segs : List CarouselSegment), f < m →
      (∀ t, t < f →
        generateImage (getApiKey store) dseg a refs (imgResp (i + t)) = .ok (url (i + t))) →
      generateImage (getApiKey store) dseg a refs (imgResp (i + f)) = .error msg →
      imageLoop store a refs imgResp i m segs
        = (okTrace url segs i f ++ [.imageCall (i + f)],
           .error (msg, applyRange url i f segs)) := by
  intro f
  induction f with
  | zero =>
    intro m i segs hfm hok hf
    cases m with
    | zero => omega
    | succ m =>
      have h0 : generateImage (getApiKey store) (segAt segs i) a refs (imgResp i)
          = .error msg := by
        simpa using hf
      simp [imageLoop, h0, okTrace, applyRange]
  | succ f ih =>
    intro m i segs hfm hok hf
    cases m with
    | zero => omega
    | succ m =>
      have h0 : generateImage (getApiKey store) (segAt segs i) a refs (imgResp i)
          = .ok (url i) := by
        have := hok 0 (by omega)
        simpa using this
      have hok2 : ∀ t, t < f →
          generateImage (getApiKey store) dseg a refs (imgResp (i + 1 + t))
            = .ok (url (i + 1 + t)) := by
        intro t ht
        have e : i + (t + 1) = i + 1 + t := by omega
        have := hok (t + 1) (by omega)
        rw [e] at this
        exact this
      have hf2 : generateImage (getApiKey store) dseg a refs (imgResp (i + 1 + f))
          = .error msg := by
        have e : i + (f + 1) = i + 1 + f := by omega
        rw [e] at hf
        exact hf
      simp only [imageLoop, h0]
      rw [ih m (i + 1) (setImage segs i (url i)) (by omega) hok2 hf2]
      have e : i + 1 + f = i + (f + 1) := by omega
      rw [e]
      rfl

theorem findInline_eq_none (parts : List ContentPart) :
    findInline parts = none ↔ ∀ p ∈ parts, p.inlineData = none := by
  induction parts with
  | nil => simp [findInline]
  | cons p ps ih =>
    cases hp : p.inlineData with
    | none => simp [findInline, hp, ih]
    | some d => simp [findInline, hp]

theorem findInline_eq_some (parts : List ContentPart) (d : String) :
    findInline parts = some d ↔
      ∃ i, ∃ hi : i < parts.length,
        (parts.get ⟨i, hi⟩).inlineData = some d ∧
        ∀ j, ∀ hj : j < parts.length, j < i → (parts.get ⟨j, hj⟩).inlineData = none := by
  induction parts with
  | nil => simp [findInline]
  | cons p ps ih =>
    cases hp : p.inlineData with
    | some d2 =>
      simp only [findInline, hp]
      constructor
      · intro h
        refine ⟨0, by simp, ?_, ?_⟩
        · simpa [hp] using h
        · intro j hj hj0; omega
      · rintro ⟨i, hi, hd, hmin⟩
        cases i with
        | zero => simpa [hp] using hd
        | succ i =>
          have := hmin 0 (by simp) (by omega)
          simp [hp] at this
    | none =>
      simp only [findInline, hp]
      rw [ih]
      constructor
      · rintro ⟨i, hi, hd, hmin⟩
        refine ⟨i + 1, by simpa using Nat.succ_lt_succ hi, by simpa using hd, ?_⟩
        intro j hj hji
        cases j with
        | zero => simpa using hp
        | succ j =>
          have hj2 : j < ps.length := by simpa using hj
          have := hmin j hj2 (by omega)
          simpa using this
      · rintro ⟨i, hi, hd, hmin⟩
        cases i with
        | zero => simp [hp] at hd
        | succ i =>
          have hi2 : i < ps.length := by simpa using hi
          refine ⟨i, hi2, by simpa using hd, ?_⟩
          intro j hj hji
          have hj2 : j + 1 < (p :: ps).length := by simpa using Nat.succ_lt_succ hj
          have := hmin (j + 1) hj2 (by omega)
          simpa using this

-- ## Claim theorems

/-- C1 (amended): a successful generatePlan call returns exactly the array the
provider text parsed to, with no validation by the code: the result has length
n with ids 1..n exactly when the parsed provider output already does; the
requested count only shapes the prompt and the schema sent to the provider. -/
theorem generatePlan_returns_parsed (apiKey : Option String) (topic : String)
    (count : Nat) (a : Aspect) (refs : List String) (resp : PlanResponse)
    (segs : List CarouselSegment) :
    generatePlan apiKey topic count a refs resp = .ok segs
      ↔ truthy apiKey = true ∧ resp = .parsed segs := by
  constructor
  · intro h
    cases hk : truthy apiKey with
    | false => simp [generatePlan, hk] at h
    | true =>
      refine ⟨rfl, ?_⟩
      cases resp with
      | thrown msg => simp [generatePlan, hk] at h
      | noText => simp [generatePlan, hk] at h
      | badJson msg => simp [generatePlan, hk] at h
      | parsed s =>
        simp only [generatePlan, hk, if_true] at h
        cases h
        rfl
  · rintro ⟨hk, rfl⟩
    simp [generatePlan, hk]

/-- C1 (counterexample): with requested count 3 and a provider text parsing to
a two element array, generatePlan succeeds and returns the two segments, so
the claimed length equality with the requested count fails. -/
theorem generatePlan_count_cex :
    generatePlan (some "key") "topic" 3 .r1x1 []
        (.parsed [⟨1, "Hook", "m1", "v1", none⟩, ⟨2, "Info", "m2", "v2", none⟩])
      = .ok [⟨1, "Hook", "m1", "v1", none⟩, ⟨2, "Info", "m2", "v2", none⟩]
    ∧ [(⟨1, "Hook", "m1", "v1", none⟩ : CarouselSegment),
       ⟨2, "Info", "m2", "v2", none⟩].length ≠ 3 := by
  constructor
  · rfl
  · decide

/-- C6 (confirmed): a credential test whose failure text carries an overload
marker reports success and persists the candidate, a truthy normal response
likewise persists it, and any other failure reports invalid and leaves the
store untouched; after persisting, get returns the candidate. -/
theorem handleTest_validation (apiKey t es : String) (store : Store)
    (hk : strEmpty apiKey = false) :
    (overloadMarker es = true →
      handleTest apiKey store (.thrown es)
        = ⟨.success, { store with customKey := some apiKey }, true⟩)
    ∧ (strEmpty t = false →
      handleTest apiKey store (.resolved (some t))
        = ⟨.success, { store with customKey := some apiKey }, true⟩)
    ∧ (overloadMarker es = false →
      handleTest apiKey store (.thrown es) = ⟨.error, store, false⟩)
    ∧ handleTest apiKey store (.resolved none) = ⟨.error, store, false⟩
    ∧ getApiKey { store with customKey := some apiKey } = some apiKey := by
  refine ⟨?_, ?_, ?_, ?_, ?_⟩
  · intro h
    simp [handleTest, hk, h]
  · intro h
    simp [handleTest, hk, truthy, h]
  · intro h
    simp [handleTest, hk, h]
  · simp [handleTest, hk, truthy]
  · simp [getApiKey, jsOr, truthy, hk]

/-- C6 (witness): an overloaded failure persists the key and a plain rejection
leaves the store as it was. -/
theorem handleTest_validation_witness :
    handleTest "k1" ⟨none, none, none⟩ (.thrown "503 Service Unavailable")
      = ⟨.success, ⟨some "k1", none, none⟩, true⟩
    ∧ handleTest "k1" ⟨some "old", none, none⟩ (.thrown "invalid api key")
      = ⟨.error, ⟨some "old", none, none⟩, false⟩ := by
  constructor
  · exact (handleTest_validation "k1" "t" "503 Service Unavailable"
      ⟨none, none, none⟩ (by decide)).1 (by decide)
  · exact (handleTest_validation "k1" "t" "invalid api key"
      ⟨some "old", none, none⟩ (by decide)).2.2.1 (by decide)

/-- C8 (confirmed): a successful generateImage call returns the first inline
payload of the response parts as a png data URI, and a response with no inline
part fails with the distinct no-image error. -/
theorem generateImage_first_inline (key : String) (s : CarouselSegment)
    (a : Aspect) (refs : List String) (parts : List ContentPart)
    (hk : strEmpty key = false) :
    (∀ u, generateImage (some key) s a refs (.resolved parts) = .ok u →
      ∃ i, ∃ hi : i < parts.length, ∃ d,
        (parts.get ⟨i, hi⟩).inlineData = some d ∧
        (∀ j, ∀ hj : j < parts.length, j < i → (parts.get ⟨j, hj⟩).inlineData = none) ∧
        u = "data:image/png;base64," ++ d)
    ∧ ((∀ p ∈ parts, p.inlineData = none) →
      generateImage (some key) s a refs (.resolved parts)
        = .error "Failed to generate image") := by
  have ht : truthy (some key) = true := by simp [truthy, hk]
  constructor
  · intro u h
    cases hf : findInline parts with
    | none => simp [generateImage, ht, hf] at h
    | some d =>
      obtain ⟨i, hi, hd, hmin⟩ := (findInline_eq_some parts d).mp hf
      refine ⟨i, hi, d, hd, hmin, ?_⟩
      simp only [generateImage, ht, if_true, hf] at h
      cases h
      rfl
  · intro h
    have hf : findInline parts = none := (findInline_eq_none parts).mpr h
    simp [generateImage, ht, hf]

/-- C8 (witness): a response whose parts carry no inline payload fails with
the no-image error. -/
theorem generateImage_first_inline_witness :
    generateImage (some "key") dseg .r1x1 [] (.resolved [⟨none⟩, ⟨none⟩])
      = .error "Failed to generate image" :=
  (generateImage_first_inline "key" dseg .r1x1 [] [⟨none⟩, ⟨none⟩]
    (by decide)).2 (by decide)

/-- C9 (confirmed): an upload that would push the total past 20 is rejected
with the existing set untouched, and past the guard the set can never exceed
20 entries when it did not before. -/
theorem handleImageUpload_bound (r : List String) (files : List (Option String)) :
    (20 < r.length + files.length → handleImageUpload r files = (r, true))
    ∧ (r.length ≤ 20 → (handleImageUpload r files).1.length ≤ 20) := by
  constructor
  · intro h
    simp [handleImageUpload, h]
  · intro h
    by_cases hg : 20 < r.length + files.length
    · simpa [handleImageUpload, hg] using h
    · have hlen : (files.filterMap id).length ≤ files.length :=
        List.length_filterMap_le id files
      simp only [handleImageUpload, if_neg hg, List.length_append]
      omega

/-- C9 (witness): fifteen stored images plus six new files is rejected without
mutation. -/
theorem handleImageUpload_bound_witness :
    handleImageUpload (List.replicate 15 "x") (List.replicate 6 (some "y"))
      = (List.replicate 15 "x", true) :=
  (handleImageUpload_bound (List.replicate 15 "x")
    (List.replicate 6 (some "y"))).1 (by decide)

/-- C10 (confirmed): a successful encrypted export also overwrites the stored
credential with the exported candidate and signals dependents, and get then
returns the candidate; exporting is never read-only on the store. -/
theorem handleSave_persists (apiKey password : String) (store : Store)
    (ha : strEmpty apiKey = false) (hp : strEmpty password = false) :
    handleSave apiKey password store
      = ⟨some (.enc (.jsonObj [("GEMINI_API_KEY", apiKey)]) password),
         { store with customKey := some apiKey }, true, .saved⟩
    ∧ getApiKey (handleSave apiKey password store).store = some apiKey := by
  have h : handleSave apiKey password store
      = ⟨some (.enc (.jsonObj [("GEMINI_API_KEY", apiKey)]) password),
         { store with customKey := some apiKey }, true, .saved⟩ := by
    simp [handleSave, ha, hp]
  refine ⟨h, ?_⟩
  rw [h]
  simp [getApiKey, jsOr, truthy, ha]

/-- C10 (witness): a concrete export writes the candidate into the store and
signals the update. -/
theorem handleSave_persists_witness :
    handleSave "cred" "pw" ⟨some "old", none, none⟩
      = ⟨some (.enc (.jsonObj [("GEMINI_API_KEY", "cred")]) "pw"),
         ⟨some "cred", none, none⟩, true, .saved⟩ :=
  (handleSave_persists "cred" "pw" ⟨some "old", none, none⟩
    (by decide) (by decide)).1

/-- C4 (amended): an export followed by an import under the same passphrase
yields the exported credential back and rehydrates the store; importing the
blob under a non-empty wrong passphrase fails as a decryption failure; with
the empty wrong passphrase the import is instead refused up front by the
password guard, before any decryption is attempted. -/
theorem encrypted_roundTrip (cred pass wrongPass : String) (st1 st2 st3 : Store)
    (hc : strEmpty cred = false) (hp : strEmpty pass = false) :
    (handleSave cred pass st1).blob
      = some (.enc (.jsonObj [("GEMINI_API_KEY", cred)]) pass)
    ∧ handleLoad pass (.enc (.jsonObj [("GEMINI_API_KEY", cred)]) pass) st2
      = ⟨.loaded cred, { st2 with customKey := some cred }, true⟩
    ∧ (strEmpty wrongPass = false → wrongPass ≠ pass →
      handleLoad wrongPass (.enc (.jsonObj [("GEMINI_API_KEY", cred)]) pass) st3
        = ⟨.decryptFailed, st3, false⟩) := by
  refine ⟨?_, ?_, ?_⟩
  · simp [handleSave, hc, hp]
  · simp [handleLoad, hp, decryptUtf8, lookupField, hc]
  · intro hw hne
    simp [handleLoad, hw, decryptUtf8, hne]

/-- C4 (witness): the round trip restores the credential and a non-empty wrong
passphrase is reported as a decryption failure. -/
theorem encrypted_roundTrip_witness :
    handleLoad "pw" (.enc (.jsonObj [("GEMINI_API_KEY", "cred")]) "pw")
        ⟨none, none, none⟩
      = ⟨.loaded "cred", ⟨some "cred", none, none⟩, true⟩
    ∧ handleLoad "xx" (.enc (.jsonObj [("GEMINI_API_KEY", "cred")]) "pw")
        ⟨none, none, none⟩
      = ⟨.decryptFailed, ⟨none, none, none⟩, false⟩ := by
  constructor
  · exact (encrypted_roundTrip "cred" "pw" "xx" ⟨none, none, none⟩
      ⟨none, none, none⟩ ⟨none, none, none⟩ (by decide) (by decide)).2.1
  · exact (encrypted_roundTrip "cred" "pw" "xx" ⟨none, none, none⟩
      ⟨none, none, none⟩ ⟨none, none, none⟩ (by decide) (by decide)).2.2
      (by decide) (by decide)

/-- C4 (counterexample): the claim quantifies over every wrong passphrase
different from the right one, but the empty wrong passphrase is refused by the
password guard with a password-required prompt, not a decryption failure. -/
theorem encrypted_roundTrip_cex :
    (handleSave "cred" "pw" ⟨none, none, none⟩).blob
      = some (.enc (.jsonObj [("GEMINI_API_KEY", "cred")]) "pw")
    ∧ handleLoad "" (.enc (.jsonObj [("GEMINI_API_KEY", "cred")]) "pw")
        ⟨none, none, none⟩
      = ⟨.needPassword, ⟨none, none, none⟩, false⟩
    ∧ ("" : String) ≠ "pw"
    ∧ LoadStatus.needPassword ≠ LoadStatus.decryptFailed := by
  decide

/-- C5 (amended): when decryption succeeds but the parsed payload lacks a
truthy GEMINI_API_KEY field, the import silently does nothing, reporting no
failure and leaving the store unchanged; decrypted text that JSON.parse
rejects is reported with the same decryption-failure alert as a wrong
passphrase, not a distinct one. -/
theorem import_missing_field_silent (pw wp : String)
    (fields : List (String × String)) (st1 st2 st3 : Store)
    (hpw : strEmpty pw = false)
    (hmiss : lookupField fields "GEMINI_API_KEY" = none) :
    handleLoad pw (.enc (.jsonObj fields) pw) st1 = ⟨.silentIgnore, st1, false⟩
    ∧ handleLoad pw (.enc .notJson pw) st2 = ⟨.decryptFailed, st2, false⟩
    ∧ (strEmpty wp = false → wp ≠ pw →
      handleLoad wp (.enc (.jsonObj fields) pw) st3 = ⟨.decryptFailed, st3, false⟩) := by
  refine ⟨?_, ?_, ?_⟩
  · simp [handleLoad, hpw, decryptUtf8, hmiss]
  · simp [handleLoad, hpw, decryptUtf8]
  · intro hw hne
    simp [handleLoad, hw, decryptUtf8, hne]

/-- C5 (witness): a payload with only a foreign field is silently ignored. -/
theorem import_missing_field_witness :
    handleLoad "pw" (.enc (.jsonObj [("OTHER", "x")]) "pw")
        ⟨some "old", none, none⟩
      = ⟨.silentIgnore, ⟨some "old", none, none⟩, false⟩ :=
  (import_missing_field_silent "pw" "xx" [("OTHER", "x")]
    ⟨some "old", none, none⟩ ⟨none, none, none⟩ ⟨none, none, none⟩
    (by decide) (by decide)).1

/-- C5 (counterexample): a successfully decrypted payload without the expected
field makes the import do nothing at all rather than fail distinctly, and a
payload JSON.parse rejects shares its report with the wrong-passphrase case. -/
theorem import_missing_field_cex :
    handleLoad "pw" (.enc (.jsonObj [("OTHER", "x")]) "pw")
        ⟨some "old", none, none⟩
      = ⟨.silentIgnore, ⟨some "old", none, none⟩, false⟩
    ∧ (handleLoad "pw" (.enc .notJson "pw") ⟨none, none, none⟩).status
      = (handleLoad "wrong" (.enc (.jsonObj [("GEMINI_API_KEY", "k")]) "pw")
          ⟨none, none, none⟩).status := by
  decide

/-- C3 (amended): an explicit rejection during a credential test leaves the
store unchanged, so get returns exactly what it returned before and is absent
only if the store and environment were already empty; a credential-rejected
failure during a run clears only the in-memory key flag and prompts re-entry,
leaving the durable store untouched. -/
theorem credential_rejection_keeps_store (apiKey es : String) (store : Store)
    (st : AppState) (store2 : Store) (imgResp : Nat → ImageResponse)
    (postResp : PostResponse) (msg : String)
    (hk : strEmpty apiKey = false) (hov : overloadMarker es = false)
    (hflag : st.hasApiKey = true) (htopic : strEmpty st.topic = false)
    (hget : truthy (getApiKey store2) = true)
    (hmsg : strIncludes msg "Requested entity was not found" = true) :
    handleTest apiKey store (.thrown es) = ⟨.error, store, false⟩
    ∧ getApiKey (handleTest apiKey store (.thrown es)).store = getApiKey store
    ∧ handleStartAutomation st store2 (.thrown msg) imgResp postResp
      = ⟨{ st with
            segments := [],
            postData := none,
            workflowState := .idle,
            hasApiKey := false },
         [.setState .planning, .setState .idle, .alertInvalidKey]⟩ := by
  have h1 : handleTest apiKey store (.thrown es) = ⟨.error, store, false⟩ := by
    simp [handleTest, hk, hov]
  refine ⟨h1, by rw [h1], ?_⟩
  have hplan : generatePlan (getApiKey store2) st.topic st.count st.aspect
      st.referenceImages (.thrown msg) = .error msg := by
    simp [generatePlan, hget]
  simp [handleStartAutomation, hflag, htopic, hplan, runCatch, hmsg]

/-- C3 (witness): a rejected test against a store holding a key keeps the key,
and a rejected run clears the in-memory flag. -/
theorem credential_rejection_keeps_store_witness :
    handleTest "bad" ⟨some "stored", none, none⟩
        (.thrown "API key not valid. Please pass a valid API key.")
      = ⟨.error, ⟨some "stored", none, none⟩, false⟩
    ∧ (handleStartAutomation ⟨"topic", 3, .r1x1, [], [], none, .idle, true⟩
        ⟨some "stored", none, none⟩ (.thrown "Requested entity was not found.")
        wImg3 .noText).state.hasApiKey = false := by
  have h := credential_rejection_keeps_store "bad"
    "API key not valid. Please pass a valid API key."
    ⟨some "stored", none, none⟩ ⟨"topic", 3, .r1x1, [], [], none, .idle, true⟩
    ⟨some "stored", none, none⟩ wImg3 .noText "Requested entity was not found."
    (by decide) (by decide) (by decide) (by decide) (by decide) (by decide)
  refine ⟨h.1, ?_⟩
  rw [h.2.2]

/-- C3 (counterexample): with a stored key, a credential test answered by an
explicit rejection leaves the store holding that key and get still returns it
rather than absent. -/
theorem credential_rejection_cex :
    (handleTest "revoked" ⟨some "stored-key", none, none⟩
        (.thrown "API key not valid. Please pass a valid API key.")).store
      = ⟨some "stored-key", none, none⟩
    ∧ getApiKey ⟨some "stored-key", none, none⟩ = some "stored-key"
    ∧ some "stored-key" ≠ (none : Option String) := by
  decide

/-- C2 (amended): when the image call for the segment at zero-based index k0
throws while every earlier call succeeded, the workflow returns to idle,
every earlier segment keeps its already-set image, every segment from k0 on
has none, and the generic failure alert is surfaced whenever the failure text
does not indicate a rejected credential; a credential-rejection text instead
clears the key flag and prompts re-entry. -/
theorem run_image_failure (st : AppState) (store : Store)
    (plan : List CarouselSegment) (imgResp : Nat → ImageResponse)
    (postResp : PostResponse) (url : Nat → String) (k0 : Nat) (msg : String)
    (hflag : st.hasApiKey = true) (htopic : strEmpty st.topic = false)
    (hget : truthy (getApiKey store) = true)
    (hnone : ∀ s ∈ plan, s.imageUrl = none)
    (hk : k0 < plan.length)
    (hok : ∀ t, t < k0 →
      generateImage (getApiKey store) dseg st.aspect st.referenceImages (imgResp t)
        = .ok (url t))
    (hfail : generateImage (getApiKey store) dseg st.aspect st.referenceImages
        (imgResp k0) = .error msg)
    (hgen : strIncludes msg "Requested entity was not found" = false) :
    handleStartAutomation st store (.parsed plan) imgResp postResp
      = ⟨{ st with
            segments := applyRange url 0 k0 plan,
            postData := none,
            workflowState := .idle },
         [.setState .planning, .publishSegments plan, .setState .generating_images]
           ++ okTrace url plan 0 k0
           ++ [.imageCall k0, .setState .idle, .alertGeneric msg]⟩
    ∧ (∀ i, i < k0 → (segAt (applyRange url 0 k0 plan) i).imageUrl = some (url i))
    ∧ (∀ i, k0 ≤ i → i < plan.length →
        (segAt (applyRange url 0 k0 plan) i).imageUrl = none) := by
  refine ⟨?_, ?_, ?_⟩
  · have hplan : generatePlan (getApiKey store) st.topic st.count st.aspect
        st.referenceImages (.parsed plan) = .ok plan := by
      simp [generatePlan, hget]
    have hok0 : ∀ t, t < k0 →
        generateImage (getApiKey store) dseg st.aspect st.referenceImages
          (imgResp (0 + t)) = .ok (url (0 + t)) := by
      intro t ht
      simpa using hok t ht
    have hf0 : generateImage (getApiKey store) dseg st.aspect st.referenceImages
        (imgResp (0 + k0)) = .error msg := by
      simpa using hfail
    have hloop := imageLoop_fail store st.aspect st.referenceImages imgResp url msg
      k0 plan.length 0 plan hk hok0 hf0
    simp [handleStartAutomation, hflag, htopic, hplan, hloop, runCatch, hgen]
  · intro i hi
    rw [segAt_applyRange_none url plan hnone k0 i (by omega)]
    simp [hi]
  · intro i hi1 hi2
    rw [segAt_applyRange_none url plan hnone k0 i hi2]
    simp [Nat.not_lt.mpr hi1]

/-- C2 (witness): a run of two segments whose second image call throws a plain
network message returns to idle keeping the first image. -/
theorem run_image_failure_witness :
    (handleStartAutomation ⟨"topic", 2, .r1x1, [], [], none, .idle, true⟩
        ⟨some "KEY", none, none⟩
        (.parsed [⟨1, "Hook", "m1", "v1", none⟩, ⟨2, "Info", "m2", "v2", none⟩])
        wImg2 .noText).state.workflowState = .idle
    ∧ (segAt (applyRange wUrl2 0 1
        [⟨1, "Hook", "m1", "v1", none⟩, ⟨2, "Info", "m2", "v2", none⟩]) 0).imageUrl
      = some (wUrl2 0) := by
  have h := run_image_failure ⟨"topic", 2, .r1x1, [], [], none, .idle, true⟩
    ⟨some "KEY", none, none⟩
    [⟨1, "Hook", "m1", "v1", none⟩, ⟨2, "Info", "m2", "v2", none⟩]
    wImg2 .noText wUrl2 1 "network failure"
    (by decide) (by decide) (by decide) (by decide) (by decide) (by decide)
    (by decide) (by decide)
  refine ⟨?_, h.2.1 0 (by decide)⟩
  rw [h.1]

/-- C2 (counterexample): the image call for segment 2 of 2 throws a message
naming a rejected entity while segment 1 succeeded; the run resets to idle and
keeps the first image, but no generic failure alert is surfaced: the
credential alert is raised instead and the key flag is cleared. -/
theorem run_image_failure_cex :
    (handleStartAutomation ⟨"topic", 2, .r1x1, [], [], none, .idle, true⟩
        ⟨some "KEY", none, none⟩
        (.parsed [⟨1, "Hook", "m1", "v1", none⟩, ⟨2, "Info", "m2", "v2", none⟩])
        xImg2 .noText).events.filter isGenericAlert = []
    ∧ Event.alertInvalidKey ∈ (handleStartAutomation
        ⟨"topic", 2, .r1x1, [], [], none, .idle, true⟩ ⟨some "KEY", none, none⟩
        (.parsed [⟨1, "Hook", "m1", "v1", none⟩, ⟨2, "Info", "m2", "v2", none⟩])
        xImg2 .noText).events
    ∧ (handleStartAutomation ⟨"topic", 2, .r1x1, [], [], none, .idle, true⟩
        ⟨some "KEY", none, none⟩
        (.parsed [⟨1, "Hook", "m1", "v1", none⟩, ⟨2, "Info", "m2", "v2", none⟩])
        xImg2 .noText).state.workflowState = .idle
    ∧ (segAt (handleStartAutomation ⟨"topic", 2, .r1x1, [], [], none, .idle, true⟩
        ⟨some "KEY", none, none⟩
        (.parsed [⟨1, "Hook", "m1", "v1", none⟩, ⟨2, "Info", "m2", "v2", none⟩])
        xImg2 .noText).state.segments 0).imageUrl = some "data:image/png;base64,AAA"
    ∧ (segAt (handleStartAutomation ⟨"topic", 2, .r1x1, [], [], none, .idle, true⟩
        ⟨some "KEY", none, none⟩
        (.parsed [⟨1, "Hook", "m1", "v1", none⟩, ⟨2, "Info", "m2", "v2", none⟩])
        xImg2 .noText).state.segments 1).imageUrl = none
    ∧ (handleStartAutomation ⟨"topic", 2, .r1x1, [], [], none, .idle, true⟩
        ⟨some "KEY", none, none⟩
        (.parsed [⟨1, "Hook", "m1", "v1", none⟩, ⟨2, "Info", "m2", "v2", none⟩])
        xImg2 .noText).state.hasApiKey = false := by
  decide

/-- C7 (confirmed): on the success path the run emits, for each index in
order, the image call event followed immediately by the publication of the
full working set with exactly the slots up to that index filled, before any
later call is issued; every slot is empty in the publication that precedes the
generating_images state, and each slot is filled by its own call with its own
url exactly once, never rewritten by a later step. -/
theorem run_success_sequential (st : AppState) (store : Store)
    (plan : List CarouselSegment) (imgResp : Nat → ImageResponse)
    (post : InstagramPostData) (url : Nat → String)
    (hflag : st.hasApiKey = true) (htopic : strEmpty st.topic = false)
    (hget : truthy (getApiKey store) = true)
    (hnone : ∀ s ∈ plan, s.imageUrl = none)
    (hok : ∀ t, t < plan.length →
      generateImage (getApiKey store) dseg st.aspect st.referenceImages (imgResp t)
        = .ok (url t)) :
    handleStartAutomation st store (.parsed plan) imgResp (.parsed post)
      = ⟨{ st with
            segments := applyRange url 0 plan.length plan,
            postData := some post,
            workflowState := .completed },
         [.setState .planning, .publishSegments plan, .setState .generating_images]
           ++ okTrace url plan 0 plan.length
           ++ [.setState .generating_caption, .publishPost post, .setState .completed]⟩
    ∧ okTrace url plan 0 plan.length
      = ((List.range plan.length).map (fun t =>
          [Event.imageCall t, Event.publishSegments (applyRange url 0 (t + 1) plan)])).flatten
    ∧ (∀ t i, i < plan.length →
        (segAt (applyRange url 0 t plan) i).imageUrl
          = if i < t then some (url i) else none) := by
  refine ⟨?_, okTrace_range url plan plan.length, ?_⟩
  · have hplan : generatePlan (getApiKey store) st.topic st.count st.aspect
        st.referenceImages (.parsed plan) = .ok plan := by
      simp [generatePlan, hget]
    have hok0 : ∀ t, t < plan.length →
        generateImage (getApiKey store) dseg st.aspect st.referenceImages
          (imgResp (0 + t)) = .ok (url (0 + t)) := by
      intro t ht
      simpa using hok t ht
    have hloop := imageLoop_ok store st.aspect st.referenceImages imgResp url
      plan.length 0 plan hok0
    have hpost : generateInstagramPost (getApiKey store) st.topic
        (applyRange url 0 plan.length plan) (.parsed post) = .ok post := by
      simp [generateInstagramPost, hget]
    simp [handleStartAutomation, hflag, htopic, hplan, hloop, hpost]
  · intro t i hi
    exact segAt_applyRange_none url plan hnone t i hi

/-- C7 (witness): a two segment success run completes with both slots filled
by their own urls. -/
theorem run_success_sequential_witness :
    (handleStartAutomation ⟨"topic", 2, .r1x1, [], [], none, .idle, true⟩
        ⟨some "KEY", none, none⟩
        (.parsed [⟨1, "Hook", "m1", "v1", none⟩, ⟨2, "Info", "m2", "v2", none⟩])
        wImg7 (.parsed ⟨"cap", ["#a"]⟩)).state.workflowState = .completed
    ∧ (segAt (applyRange wUrl7 0 2
        [⟨1, "Hook", "m1", "v1", none⟩, ⟨2, "Info", "m2", "v2", none⟩]) 1).imageUrl
      = some (wUrl7 1) := by
  have h := run_success_sequential ⟨"topic", 2, .r1x1, [], [], none, .idle, true⟩
    ⟨some "KEY", none, none⟩
    [⟨1, "Hook", "m1", "v1", none⟩, ⟨2, "Info", "m2", "v2", none⟩]
    wImg7 ⟨"cap", ["#a"]⟩ wUrl7
    (by decide) (by decide) (by decide) (by decide) (by decide)
  constructor
  · rw [h.1]
  · have h2 := h.2.2 2 1 (by decide)
    simpa using h2
